import Mathlib

/-!
Shallow embedding of `src/render_react/renderer.py` (flask-react-render).

The module defines two view decorators (`render_html`, `render_react`) and the
development-time file-generation helpers `_write_react_page_file` and
`_write_typescript_file`, plus the content generator
`_generate_typescript_type_file_contents`.

Python strings are embedded as Lean `String`; filesystem paths as lists of
path components; the filesystem as an explicit finite state threaded through
the operations; Python exceptions as `Except`.
-/

namespace RenderReact

/-- A filesystem path, as a list of components relative to `app.root_path`. -/
abbrev FsPath := List String

/-- The state of a file on disk: its readable content, or a file that exists
but whose read raises `IOError` (e.g. a permissions failure). -/
inductive FileData
  | readable (content : String)
  | unreadable
deriving DecidableEq

/-- The filesystem: a finite map from paths to file states, plus the set of
existing directories. -/
structure FS where
  files : List (FsPath × FileData)
  dirs : List FsPath
deriving DecidableEq

/-- Errors the Python code can raise: `IOError`/`OSError` from `open`/`unlink`,
`OSError` (directory not empty) from `rmdir`, `FileNotFoundError` from `mkdir`
with a missing ancestor, and `AssertionError` from a failed `assert`. -/
inductive Err
  | ioError
  | dirNotEmpty
  | fileNotFound
  | assertionError
deriving DecidableEq

instance {ε α : Type} [DecidableEq ε] [DecidableEq α] : DecidableEq (Except ε α)
  | .ok a, .ok b =>
    if h : a = b then .isTrue (by rw [h])
    else .isFalse (fun he => h (Except.ok.injEq .. ▸ he))
  | .ok _, .error _ => .isFalse (fun he => Except.noConfusion he)
  | .error _, .ok _ => .isFalse (fun he => Except.noConfusion he)
  | .error e, .error f =>
    if h : e = f then .isTrue (by rw [h])
    else .isFalse (fun he => h (Except.error.injEq .. ▸ he))

/-- Look a path up in the file table. -/
def lookupFile : List (FsPath × FileData) → FsPath → Option FileData
  | [], _ => none
  | (q, d) :: rest, p => if q = p then some d else lookupFile rest p

/-- Insert or replace a file entry. -/
def setFile : List (FsPath × FileData) → FsPath → FileData → List (FsPath × FileData)
  | [], p, d => [(p, d)]
  | (q, e) :: rest, p, d => if q = p then (p, d) :: rest else (q, e) :: setFile rest p d

/-- Remove a file entry. -/
def removeFile : List (FsPath × FileData) → FsPath → List (FsPath × FileData)
  | [], _ => []
  | (q, e) :: rest, p => if q = p then rest else (q, e) :: removeFile rest p

/-- `os.path.exists` on a file path. -/
def pathExists (fs : FS) (p : FsPath) : Bool :=
  (lookupFile fs.files p).isSome

/-- `path.open() ... fh.read()`: raises `IOError` on a missing or unreadable
file, returns the content otherwise. -/
def readFile (fs : FS) (p : FsPath) : Except Err String :=
  match lookupFile fs.files p with
  | some (.readable c) => .ok c
  | some .unreadable => .error .ioError
  | none => .error .ioError

/-- `path.open("w") ... fh.write(data)`: create or overwrite. -/
def writeFile (fs : FS) (p : FsPath) (data : String) : FS :=
  { fs with files := setFile fs.files p (.readable data) }

/-- `path.unlink()`: remove the file, raising if it is absent. -/
def unlinkFile (fs : FS) (p : FsPath) : Except Err FS :=
  if (lookupFile fs.files p).isSome then
    .ok { fs with files := removeFile fs.files p }
  else .error .ioError

/-- The entries `path.iterdir()` yields for directory `d`: files and
subdirectories whose parent is `d`. -/
def dirEntries (fs : FS) (d : FsPath) : List FsPath :=
  (fs.files.map Prod.fst).filter (fun p => decide (p.dropLast = d ∧ p ≠ [])) ++
    fs.dirs.filter (fun p => decide (p.dropLast = d ∧ p ≠ []))

/-- `path.mkdir(exist_ok=True)` (no `parents=True`): no-op when the directory
exists, otherwise create it, raising `FileNotFoundError` when its own parent
is missing. The empty path is the root and always exists. -/
def mkdirExistOk (fs : FS) (d : FsPath) : Except Err FS :=
  if d ∈ fs.dirs then .ok fs
  else if d.dropLast ∈ fs.dirs ∨ d.dropLast = [] then
    .ok { fs with dirs := d :: fs.dirs }
  else .error .fileNotFound

/-- `path.rmdir()`: raises `OSError` when the directory is non-empty or
absent, otherwise removes it. -/
def rmdirFs (fs : FS) (d : FsPath) : Except Err FS :=
  if dirEntries fs d ≠ [] then .error .dirNotEmpty
  else if d ∈ fs.dirs then .ok { fs with dirs := fs.dirs.filter (fun q => decide (q ≠ d)) }
  else .error .ioError

/-- Python truthiness of an `Optional[str]`: `None` and `""` are falsy. -/
def truthyStr : Option String → Bool
  | none => false
  | some s => decide (s ≠ "")

/-- The deterministic type-file path
`Path(app.root_path) / "js" / "template" / module / f"\x7bendpoint\x7d.type.ts"`. -/
def tsTypePath (module endpoint : String) : FsPath :=
  ["js", "template", module, endpoint ++ ".type.ts"]

/-- The deterministic component-stub path
`Path(app.root_path) / "js" / "template" / module / f"\x7bendpoint\x7d.tsx"`. -/
def tsxPath (module endpoint : String) : FsPath :=
  ["js", "template", module, endpoint ++ ".tsx"]

/-- `Path(app.root_path) / "template" / "render_react.template"`. -/
def stubTemplatePath : FsPath := ["template", "render_react.template"]

/-- The body of `_write_typescript_file` after the existing content has been
read: compare, then write (creating the directory) or delete (then the
directory handling of lines 262-265 of the source). -/
def syncWithExisting (fs : FS) (module endpoint : String)
    (type_data existing_type_data : Option String) : Except Err FS :=
  let p := tsTypePath module endpoint
  if type_data = existing_type_data then .ok fs
  else if truthyStr type_data then do
    let fs1 ← mkdirExistOk fs p.dropLast
    .ok (writeFile fs1 p (type_data.getD ""))
  else do
    let fs1 ← unlinkFile fs p
    if dirEntries fs1 p.dropLast ≠ [] then rmdirFs fs1 p.dropLast
    else .ok fs1

/-- `_write_typescript_file(module=..., endpoint=..., type_data=...)`:
no-op unless `ENVIRONMENT == "development"`; reads the existing file
swallowing `IOError` into `None`; then compares and writes or deletes. -/
def write_typescript_file (ENVIRONMENT : String) (fs : FS)
    (module endpoint : String) (type_data : Option String) : Except Err FS :=
  if ENVIRONMENT ≠ "development" then .ok fs
  else
    syncWithExisting fs module endpoint type_data
      (readFile fs (tsTypePath module endpoint)).toOption

/-- `_write_react_page_file(module, endpoint)`: no-op unless
`settings.in_dev_environment`; when the `.tsx` file is absent, read the stub
template, create the directory, and write the template content verbatim;
when the file exists, do nothing. -/
def write_react_page_file (in_dev_environment : Bool) (fs : FS)
    (module endpoint : String) : Except Err FS :=
  if !in_dev_environment then .ok fs
  else
    let p := tsxPath module endpoint
    if !(pathExists fs p) then do
      let template_file_content ← readFile fs stubTemplatePath
      let fs1 ← mkdirExistOk fs p.dropLast
      .ok (writeFile fs1 p template_file_content)
    else .ok fs

/-- Python `str.strip` on a character list: drop whitespace from both ends. -/
def stripList (l : List Char) : List Char :=
  ((l.dropWhile Char.isWhitespace).reverse.dropWhile Char.isWhitespace).reverse

/-- Python `str.strip()`. -/
def pyStrip (s : String) : String := ⟨stripList s.data⟩

/-- The fixed generated-file header comment (with its trailing blank line). -/
def header_comment : String :=
  "// This file is generated by @render_react in admin, changes will be overwritten\n\n"

/-- The text of the header comment, without the trailing newlines. -/
def headerText : String :=
  "// This file is generated by @render_react in admin, changes will be overwritten"

/-- `_generate_typescript_type_file_contents`, with the result of the external
`generate_interfaces` already rendered: `typescript_imports` is `none` when
the imports object is falsy, otherwise its rendered text. -/
def generate_typescript_type_file_contents
    (typescript_imports : Option String) (typescript_interfaces : String) : String :=
  let export_string := header_comment
  let export_string :=
    match typescript_imports with
    | some imports => export_string ++ imports ++ "\n"
    | none => export_string
  let export_string := export_string ++ typescript_interfaces
  pyStrip export_string ++ "\n"

/-- A Python type object usable as a return annotation: `NoneType`, an attrs
class (identified by a tag fed to the external `generate_interfaces`), or any
other type. -/
inductive PyType
  | noneType
  | attrsClass (tag : Nat)
  | otherType
deriving DecidableEq

/-- The value of `typing.get_type_hints(f).pop("return", None)`: the Python
value `None` when the annotation is absent, else the annotated type. -/
inductive ExtractedReturn
  | pyNone
  | ofType (t : PyType)
deriving DecidableEq

/-- `self.return_type = self.view_function_types.pop("return", None)`. -/
def extract_return_type (ann : Option PyType) : ExtractedReturn :=
  match ann with
  | none => .pyNone
  | some t => .ofType t

/-- Python `self.return_type == NoneType`: true only for the `NoneType` class;
the Python value `None` is not equal to `NoneType`. -/
def eqNoneType : ExtractedReturn → Bool
  | .ofType .noneType => true
  | _ => false

/-- Python `getattr(self.return_type, "__attrs_attrs__", False)` truthiness:
true exactly for attrs classes. -/
def hasAttrsAttrs : ExtractedReturn → Bool
  | .ofType (.attrsClass _) => true
  | _ => false

/-- The application settings. Only `ENVIRONMENT` is read by this module
directly; `in_dev_environment` is derived (see below). -/
structure Settings where
  ENVIRONMENT : String

/-- Modelled from the spec: `settings.in_dev_environment` lives in the
`src/settings` module, which is absent from the sources; the spec says a
single development-mode flag gates all filesystem generation, so it is the
`ENVIRONMENT == "development"` test. -/
def Settings.in_dev_environment (st : Settings) : Bool :=
  decide (st.ENVIRONMENT = "development")

/-- `render_react._write_typescript_type_file`, the decoration-time step: an
early return for `NoneType`, the attrs `assert` (the non-attrs fallthrough is
`AssertionError`), then the stub writer and the type-file sync with the
generated contents. `gen` is the external `generate_interfaces`, keyed by the
attrs-class tag and returning the rendered imports (falsy as `none`) and the
rendered interface declaration. -/
def write_typescript_type_file (st : Settings)
    (gen : Nat → Option String × String) (fs : FS)
    (module endpoint : String) (return_type : ExtractedReturn) : Except Err FS :=
  if eqNoneType return_type then .ok fs
  else
    match return_type with
    | .ofType (.attrsClass tag) => do
      let fs1 ← write_react_page_file st.in_dev_environment fs module endpoint
      let (typescript_imports, typescript_interfaces) := gen tag
      write_typescript_file st.ENVIRONMENT fs1 module endpoint
        (some (generate_typescript_type_file_contents
          typescript_imports typescript_interfaces))
    | _ => .error .assertionError

/-- A handler result: a `dict` (mapping), a pre-built response object such as
a redirect, or `None`. -/
inductive HandlerResponse
  | dict (entries : List (String × String))
  | rawResponse (tag : String)
  | pyNone
deriving DecidableEq

/-- Python `isinstance(response, dict)`. -/
def isDict : HandlerResponse → Bool
  | .dict _ => true
  | _ => false

/-- The outcome of a wrapped handler call: the raw result passed through, or
a rendered `(body, status, headers)` triple. -/
inductive WrappedResult
  | passthrough (r : HandlerResponse)
  | http (body : String) (status : Nat) (contentType : String)
deriving DecidableEq

/-- The template name derived from the handler module and name when no
explicit template was given:
`"/" + "/".join(module.split(".")[2:]) + "/" + name + ".jinja2"`. -/
def derivedTemplateName (module name : String) : String :=
  let directory := String.intercalate "/" ((module.splitOn ".").drop 2)
  "/" ++ directory ++ "/" ++ name ++ ".jinja2"

/-- The body of the `wrapped` closure of `render_html.__call__`, applied to the handler
result. `render` is the external `flask.render_template`, taking the template
name, the `dict` entries, and the ambient base/extension context. -/
def render_html_wrapped
    (render : String → List (String × String) → List (String × String) → String)
    (selfTemplate : Option String) (module name : String)
    (ambientContext : List (String × String))
    (response : HandlerResponse) : WrappedResult :=
  if !(isDict response) then .passthrough response
  else
    let template :=
      match selfTemplate with
      | none => derivedTemplateName module name
      | some t => t
    let entries := match response with | .dict d => d | _ => []
    .http (render template entries ambientContext) 200 "text/html; charset=utf-8"

/-! Concrete filesystem states for evaluating the operations. -/

/-- A development filesystem holding the generated type file of endpoint `e`
in module `m`, plus one unrelated sibling file in the same directory. -/
def fsSibling : FS :=
  { files := [(tsTypePath "m" "e", .readable "old"),
              (["js", "template", "m", "other.ts"], .readable "x")],
    dirs := [["js", "template", "m"], ["js", "template"]] }

/-- A development filesystem where the generated type file of endpoint `e` in
module `m` is the only entry of its directory. -/
def fsAlone : FS :=
  { files := [(tsTypePath "m" "e", .readable "old")],
    dirs := [["js", "template", "m"], ["js", "template"]] }

/-- A filesystem holding a stale generated type file for endpoint `e` of
module `m`, left over from a prior schema. -/
def fsStale : FS :=
  { files := [(tsTypePath "m" "e", .readable "stale")],
    dirs := [["js", "template", "m"], ["js", "template"]] }

/-- A filesystem where the `.tsx` component stub of endpoint `e` in module
`m` already exists with hand-edited content. -/
def fsTsx : FS :=
  { files := [(tsxPath "m" "e", .readable "custom"),
              (stubTemplatePath, .readable "TEMPLATE")],
    dirs := [["js", "template", "m"], ["js", "template"], ["template"]] }

/-- A fresh filesystem holding only the stub template file. -/
def fsFresh : FS :=
  { files := [(stubTemplatePath, .readable "TEMPLATE")],
    dirs := [["js", "template"], ["template"]] }

/-- The state `fsFresh` reaches after the stub writer creates
`js/template/m/e.tsx` from the template. -/
def fsCreated : FS :=
  { files := [(stubTemplatePath, .readable "TEMPLATE"),
              (tsxPath "m" "e", .readable "TEMPLATE")],
    dirs := [["js", "template", "m"], ["js", "template"], ["template"]] }

/-- A filesystem where the generated type file of endpoint `e` in module `m`
exists but raises `IOError` when read. -/
def fsUnreadable : FS :=
  { files := [(tsTypePath "m" "e", .unreadable)],
    dirs := [["js", "template", "m"], ["js", "template"]] }

/-- A development filesystem before any type file has been written for
endpoint `e` of module `m`. -/
def fsStart : FS :=
  { files := [], dirs := [["js", "template"]] }

/-- The state `fsStart` reaches after the type-file sync first writes the
content `T` for endpoint `e` of module `m`. -/
def fsTypedOnce : FS :=
  { files := [(tsTypePath "m" "e", .readable "T")],
    dirs := [["js", "template", "m"], ["js", "template"]] }

/-! Helper lemmas about the filesystem operations. -/

theorem lookupFile_setFile_self (fl : List (FsPath × FileData)) (p : FsPath) (d : FileData) :
    lookupFile (setFile fl p d) p = some d := by
  induction fl with
  | nil => simp [setFile, lookupFile]
  | cons hd tl ih =>
    obtain ⟨q, e⟩ := hd
    by_cases h : q = p
    · simp [setFile, h, lookupFile]
    · simp [setFile, h, lookupFile, ih]

theorem mkdirExistOk_files {fs fs' : FS} {d : FsPath} (h : mkdirExistOk fs d = .ok fs') :
    fs'.files = fs.files := by
  unfold mkdirExistOk at h
  split at h
  · cases h; rfl
  · split at h
    · cases h; rfl
    · cases h

theorem readFile_toOption_eq_some {fs : FS} {p : FsPath} {s : String} :
    (readFile fs p).toOption = some s ↔ lookupFile fs.files p = some (.readable s) := by
  cases h : lookupFile fs.files p with
  | none => simp [readFile, h, Except.toOption]
  | some d => cases d <;> simp [readFile, h, Except.toOption]

theorem dropWhile_head_false {α : Type} {p : α → Bool} :
    ∀ (l : List α) {c : α} {cs : List α}, l.dropWhile p = c :: cs → p c = false := by
  intro l
  induction l with
  | nil => intro c cs h; simp [List.dropWhile] at h
  | cons a as ih =>
    intro c cs h
    rw [List.dropWhile_cons] at h
    by_cases ha : p a = true
    · rw [if_pos ha] at h; exact ih h
    · rw [if_neg ha] at h
      cases h
      exact Bool.eq_false_iff.mpr ha

theorem dropWhile_headerData (b : List Char) :
    (headerText.data ++ b).dropWhile Char.isWhitespace = headerText.data ++ b := by
  rw [List.dropWhile_append]
  have h1 : headerText.data.dropWhile Char.isWhitespace = headerText.data := by decide
  rw [h1]
  have h2 : headerText.data.isEmpty = false := by decide
  rw [h2]
  rfl

theorem stripList_header (b : List Char) :
    ∃ tail, stripList (headerText.data ++ b) = headerText.data ++ tail ∧
      (stripList (headerText.data ++ b)).getLast? ≠ some '\n' := by
  unfold stripList
  rw [dropWhile_headerData, List.reverse_append, List.dropWhile_append]
  by_cases hz : (b.reverse.dropWhile Char.isWhitespace).isEmpty = true
  · rw [if_pos hz]
    have hh : headerText.data.reverse.dropWhile Char.isWhitespace =
        headerText.data.reverse := by decide
    rw [hh, List.reverse_reverse]
    exact ⟨[], by simp, by decide⟩
  · rw [if_neg hz]
    rw [List.reverse_append, List.reverse_reverse]
    refine ⟨(b.reverse.dropWhile Char.isWhitespace).reverse, rfl, ?_⟩
    cases hzz : b.reverse.dropWhile Char.isWhitespace with
    | nil => rw [hzz] at hz; simp at hz
    | cons c cs =>
      have hc : Char.isWhitespace c = false := dropWhile_head_false _ hzz
      rw [List.reverse_cons, ← List.append_assoc, List.getLast?_concat]
      intro hcon
      rw [Option.some.injEq] at hcon
      subst hcon
      simp at hc

/-! Claim theorems. -/

/-- C1: the claim says that after the type file is deleted the parent
directory is removed if and only if a listing confirms it empty, and that a
remaining sibling file causes no error. The code at lines 262-265 inverts
the emptiness check (`if any(parent.iterdir()): parent.rmdir()`), so with a
sibling file present it calls `rmdir` on a non-empty directory and raises
`OSError`, and with the directory empty it leaves the directory in place. -/
theorem c1_directory_cleanup_inverted :
    write_typescript_file "development" fsSibling "m" "e" none = .error .dirNotEmpty ∧
    write_typescript_file "development" fsAlone "m" "e" none =
      .ok { files := [], dirs := [["js", "template", "m"], ["js", "template"]] } :=
  ⟨by decide, by decide⟩

/-- C2 counterexample: decorating a handler whose declared return type is
`None` while a stale type file exists leaves the filesystem untouched — the
stale file is not deleted, contradicting the claim. -/
theorem c2_stale_file_survives :
    write_typescript_type_file ⟨"development"⟩ (fun _ => (none, "")) fsStale "m" "e"
      (.ofType .noneType) = .ok fsStale ∧
    lookupFile fsStale.files (tsTypePath "m" "e") = some (.readable "stale") :=
  ⟨rfl, by decide⟩

/-- C2 (amended): a handler declaring return type `None` triggers no stub or
type-file creation — decoration returns with the filesystem unchanged, which
also means a stale type file from a prior schema is left in place, not
deleted. -/
theorem c2_none_schema_no_files (st : Settings) (gen : Nat → Option String × String)
    (fs : FS) (module endpoint : String) :
    write_typescript_type_file st gen fs module endpoint (.ofType .noneType) = .ok fs :=
  rfl

/-- C6: a plain-template handler result that is not a mapping is passed
through unchanged, and the outcome does not depend on the template renderer
at all, so no rendering is attempted. -/
theorem c6_non_mapping_passthrough
    (render render2 : String → List (String × String) → List (String × String) → String)
    (selfTemplate : Option String) (module name : String)
    (ctx : List (String × String)) (response : HandlerResponse)
    (h : isDict response = false) :
    render_html_wrapped render selfTemplate module name ctx response =
      .passthrough response ∧
    render_html_wrapped render selfTemplate module name ctx response =
      render_html_wrapped render2 selfTemplate module name ctx response := by
  cases response with
  | dict d => simp [isDict] at h
  | rawResponse t => exact ⟨rfl, rfl⟩
  | pyNone => exact ⟨rfl, rfl⟩

/-- C6 witness: a redirect-like raw response is returned unchanged, under two
different renderers. -/
theorem c6_non_mapping_passthrough_witness :
    render_html_wrapped (fun _ _ _ => "A") none "src.views.home" "index" []
      (.rawResponse "redirect") = .passthrough (.rawResponse "redirect") ∧
    render_html_wrapped (fun _ _ _ => "A") none "src.views.home" "index" []
      (.rawResponse "redirect") =
      render_html_wrapped (fun _ _ _ => "B") none "src.views.home" "index" []
        (.rawResponse "redirect") :=
  c6_non_mapping_passthrough (fun _ _ _ => "A") (fun _ _ _ => "B") none
    "src.views.home" "index" [] (.rawResponse "redirect") (by decide)

/-- C7: outside development mode both the type-file sync and the component
stub writer return the filesystem unchanged, performing no operation. -/
theorem c7_no_fs_ops_outside_dev (st : Settings) (fs : FS)
    (module endpoint : String) (type_data : Option String)
    (h : st.ENVIRONMENT ≠ "development") :
    write_typescript_file st.ENVIRONMENT fs module endpoint type_data = .ok fs ∧
    write_react_page_file st.in_dev_environment fs module endpoint = .ok fs := by
  constructor
  · unfold write_typescript_file
    rw [if_pos h]
  · unfold write_react_page_file Settings.in_dev_environment
    rw [decide_eq_false h]
    rfl

/-- C7 witness: in a production environment both operations leave a concrete
filesystem unchanged. -/
theorem c7_no_fs_ops_outside_dev_witness :
    write_typescript_file (Settings.mk "production").ENVIRONMENT fsStale "m" "e"
      (some "T") = .ok fsStale ∧
    write_react_page_file (Settings.mk "production").in_dev_environment fsStale
      "m" "e" = .ok fsStale :=
  c7_no_fs_ops_outside_dev ⟨"production"⟩ fsStale "m" "e" (some "T") (by decide)

/-- C8: a declared return type that is neither `NoneType` nor an attrs class
makes decoration fail with `AssertionError`, before any stub or type file is
written (the error outcome carries no filesystem state, so no mutation has
happened). -/
theorem c8_non_attrs_assertion (st : Settings) (gen : Nat → Option String × String)
    (fs : FS) (module endpoint : String) (rt : ExtractedReturn)
    (h1 : eqNoneType rt = false) (h2 : hasAttrsAttrs rt = false) :
    write_typescript_type_file st gen fs module endpoint rt = .error .assertionError := by
  cases rt with
  | pyNone => rfl
  | ofType t =>
    cases t with
    | noneType => simp [eqNoneType] at h1
    | attrsClass tag => simp [hasAttrsAttrs] at h2
    | otherType => rfl

/-- C8 witness: a primitive (non-attrs, non-`NoneType`) return type fails the
assertion on a concrete filesystem. -/
theorem c8_non_attrs_assertion_witness :
    write_typescript_type_file ⟨"development"⟩ (fun _ => (none, "")) fsFresh "m" "e"
      (.ofType .otherType) = .error .assertionError :=
  c8_non_attrs_assertion ⟨"development"⟩ (fun _ => (none, "")) fsFresh "m" "e"
    (.ofType .otherType) (by decide) (by decide)

/-- C10: a handler with no return annotation yields the Python value `None`
as extracted return type; that is not equal to the `NoneType` class, so
decoration falls through the none-check and fails the attrs assertion, while
an explicit `None` annotation returns silently without touching the
filesystem. -/
theorem c10_missing_return_hint_asserts (st : Settings)
    (gen : Nat → Option String × String) (fs : FS) (module endpoint : String) :
    extract_return_type none = .pyNone ∧
    eqNoneType (extract_return_type none) = false ∧
    write_typescript_type_file st gen fs module endpoint (extract_return_type none) =
      .error .assertionError ∧
    write_typescript_type_file st gen fs module endpoint
      (extract_return_type (some .noneType)) = .ok fs :=
  ⟨rfl, rfl, rfl, rfl⟩

/-- C3: the type-file sync is idempotent — when a development-mode call with
non-empty type data succeeds, the file afterwards reads back string-equal to
the type data, and a second call with the same type data returns the
filesystem unchanged, performing no mutation. -/
theorem c3_idempotent_sync (fs fs1 : FS) (module endpoint : String) (s : String)
    (hs : s ≠ "")
    (h1 : write_typescript_file "development" fs module endpoint (some s) = .ok fs1) :
    readFile fs1 (tsTypePath module endpoint) = .ok s ∧
    write_typescript_file "development" fs1 module endpoint (some s) = .ok fs1 := by
  have henv : ¬("development" ≠ "development") := fun h => h rfl
  have hread : readFile fs1 (tsTypePath module endpoint) = .ok s := by
    unfold write_typescript_file at h1
    rw [if_neg henv] at h1
    simp only [syncWithExisting] at h1
    by_cases hceq :
        (some s : Option String) = (readFile fs (tsTypePath module endpoint)).toOption
    · rw [if_pos hceq] at h1
      cases h1
      have hl : lookupFile fs.files (tsTypePath module endpoint) =
          some (.readable s) := readFile_toOption_eq_some.mp hceq.symm
      unfold readFile
      rw [hl]
    · rw [if_neg hceq] at h1
      have ht : truthyStr (some s) = true := by simp [truthyStr, hs]
      rw [if_pos ht] at h1
      cases hmk : mkdirExistOk fs (tsTypePath module endpoint).dropLast with
      | error e => rw [hmk] at h1; simp [Bind.bind, Except.bind] at h1
      | ok fs2 =>
        rw [hmk] at h1
        simp only [Bind.bind, Except.bind, Option.getD] at h1
        cases h1
        unfold readFile writeFile
        rw [lookupFile_setFile_self]
  refine ⟨hread, ?_⟩
  unfold write_typescript_file
  rw [if_neg henv]
  simp only [syncWithExisting, hread, Except.toOption]
  rfl

/-- C3 witness: writing the content `T` into a fresh development filesystem
yields a state from which re-reading gives `T` and a second sync with `T` is
a no-op. -/
theorem c3_idempotent_sync_witness :
    readFile fsTypedOnce (tsTypePath "m" "e") = .ok "T" ∧
    write_typescript_file "development" fsTypedOnce "m" "e" (some "T") =
      .ok fsTypedOnce :=
  c3_idempotent_sync fsStart fsTypedOnce "m" "e" "T" (by decide) (by decide)

/-- C4: type-source generation is deterministic (a pure function of the
rendered introspector output), every generated string ends in exactly one
trailing newline (the last character is a newline and the character before
it is not), and every generated string begins with the fixed generated-file
header comment text. -/
theorem c4_deterministic_generation (typescript_imports : Option String)
    (typescript_interfaces : String) :
    generate_typescript_type_file_contents typescript_imports typescript_interfaces =
      generate_typescript_type_file_contents typescript_imports typescript_interfaces ∧
    ∃ body tail,
      (generate_typescript_type_file_contents typescript_imports
          typescript_interfaces).data = body ++ ['\n'] ∧
      body = headerText.data ++ tail ∧
      body.getLast? ≠ some '\n' := by
  refine ⟨rfl, ?_⟩
  have hdr : header_comment.data = headerText.data ++ ['\n', '\n'] := by decide
  cases typescript_imports with
  | none =>
    have hrepr : generate_typescript_type_file_contents none typescript_interfaces =
        pyStrip (header_comment ++ typescript_interfaces) ++ "\n" := rfl
    have hdata : (pyStrip (header_comment ++ typescript_interfaces) ++ "\n").data =
        stripList (headerText.data ++ (['\n', '\n'] ++ typescript_interfaces.data)) ++
          ['\n'] := by
      rw [String.data_append]
      show stripList (header_comment ++ typescript_interfaces).data ++ ['\n'] = _
      rw [String.data_append, hdr, List.append_assoc]
    rw [hrepr, hdata]
    obtain ⟨tail, h1, h2⟩ := stripList_header (['\n', '\n'] ++ typescript_interfaces.data)
    exact ⟨_, tail, rfl, h1, h2⟩
  | some imports =>
    have hrepr : generate_typescript_type_file_contents (some imports)
        typescript_interfaces =
        pyStrip (header_comment ++ imports ++ "\n" ++ typescript_interfaces) ++ "\n" :=
      rfl
    have hdata : (pyStrip (header_comment ++ imports ++ "\n" ++ typescript_interfaces)
          ++ "\n").data =
        stripList (headerText.data ++
          (['\n', '\n'] ++ (imports.data ++ ['\n'] ++ typescript_interfaces.data))) ++
          ['\n'] := by
      rw [String.data_append]
      show stripList (header_comment ++ imports ++ "\n" ++ typescript_interfaces).data
          ++ ['\n'] = _
      rw [String.data_append, String.data_append, String.data_append, hdr]
      simp [List.append_assoc]
    rw [hrepr, hdata]
    obtain ⟨tail, h1, h2⟩ := stripList_header
      (['\n', '\n'] ++ (imports.data ++ ['\n'] ++ typescript_interfaces.data))
    exact ⟨_, tail, rfl, h1, h2⟩

/-- C5: the component stub writer only creates, never updates — when the
`.tsx` file already exists the call returns the filesystem unchanged, and
once a call has succeeded every repeated call is a no-op. -/
theorem c5_stub_create_only (dev : Bool) (fs fs1 : FS) (module endpoint : String) :
    (pathExists fs (tsxPath module endpoint) = true →
      write_react_page_file dev fs module endpoint = .ok fs) ∧
    (write_react_page_file dev fs module endpoint = .ok fs1 →
      write_react_page_file dev fs1 module endpoint = .ok fs1) := by
  constructor
  · intro hex
    cases dev with
    | false => rfl
    | true =>
      simp only [write_react_page_file]
      rw [hex]
      rfl
  · intro h
    cases dev with
    | false =>
      cases (show (Except.ok fs : Except Err FS) = .ok fs1 from h)
      rfl
    | true =>
      by_cases hex : pathExists fs (tsxPath module endpoint) = true
      · simp only [write_react_page_file] at h
        rw [hex] at h
        cases (show (Except.ok fs : Except Err FS) = .ok fs1 from h)
        simp only [write_react_page_file]
        rw [hex]
        rfl
      · have hexf : pathExists fs (tsxPath module endpoint) = false :=
          Bool.eq_false_iff.mpr hex
        simp only [write_react_page_file] at h
        rw [hexf] at h
        cases hr : readFile fs stubTemplatePath with
        | error e => rw [hr] at h; simp [Bind.bind, Except.bind] at h
        | ok tmpl =>
          rw [hr] at h
          cases hmk : mkdirExistOk fs (tsxPath module endpoint).dropLast with
          | error e =>
            rw [hmk] at h; simp [Bind.bind, Except.bind] at h
          | ok fs2 =>
            rw [hmk] at h
            simp only [Bind.bind, Except.bind] at h
            cases h
            have hex1 : pathExists (writeFile fs2 (tsxPath module endpoint) tmpl)
                (tsxPath module endpoint) = true := by
              unfold pathExists writeFile
              rw [lookupFile_setFile_self]
              rfl
            simp only [write_react_page_file]
            rw [hex1]
            rfl

/-- C5 witness: a hand-edited stub is left untouched, and after a first
creation from the template a repeated call is a no-op. -/
theorem c5_stub_create_only_witness :
    write_react_page_file true fsTsx "m" "e" = .ok fsTsx ∧
    write_react_page_file true fsCreated "m" "e" = .ok fsCreated :=
  ⟨(c5_stub_create_only true fsTsx fsTsx "m" "e").1 (by decide),
   (c5_stub_create_only true fsFresh fsCreated "m" "e").2 (by decide)⟩

/-- C9: in development mode a failing read of the existing generated file is
not propagated — the sync continues exactly as the compare-and-write step
would on a `None` existing content, i.e. as for an absent file. -/
theorem c9_read_failure_as_absent (fs : FS) (module endpoint : String)
    (type_data : Option String)
    (h : readFile fs (tsTypePath module endpoint) = .error .ioError) :
    write_typescript_file "development" fs module endpoint type_data =
      syncWithExisting fs module endpoint type_data none := by
  unfold write_typescript_file
  rw [if_neg (fun hc => hc rfl), h]
  rfl

/-- C9 witness: on a filesystem where the generated file exists but raises
`IOError` on read, the sync behaves as the compare-and-write step does for
absent content. -/
theorem c9_read_failure_as_absent_witness :
    write_typescript_file "development" fsUnreadable "m" "e" (some "T") =
      syncWithExisting fsUnreadable "m" "e" (some "T") none :=
  c9_read_failure_as_absent fsUnreadable "m" "e" (some "T") (by decide)

end RenderReact
